import Mathlib

/-!
Verification of the grid-construction core of opm-core against its
natural-language specification.

The development shallowly embeds the deck-driven grid construction logic of
`opm/core/grid/GridManager.cpp` and the MATLAB-side corner-point input
validation of `mxgrdecl.c`.  C++ `double` data is modelled as `Rat`
(the claims under study only copy, compare and add these values), machine
integers as `Int`, and fallible code returns `Except`.  A thrown
`std::runtime_error` (via `OPM_THROW`) is modelled as `GridError.thrown`
with the exact message string from the source; an out-of-bounds element
access on deck data (undefined behaviour / a parser-side exception in the
original) is modelled as `GridError.outOfBounds`.

The external mesh builders (`create_grid_cornerpoint`, `create_grid_tensor3d`,
`read_grid`, ...) are not part of the four source files; the embedding
therefore computes the exact call that would be made to them
(`BuilderCall`) and treats the builder itself as an abstract function
returning `Option M`, exactly mirroring the null-pointer check the source
performs on the builder's result.
-/

namespace Opm

/-- One item of a deck record; `getInt i` / `getSIDouble i` in the parser API
are modelled as positional lookups into these lists. -/
structure DeckItem where
  ints : List Int
  sidoubles : List Rat
deriving Repr, DecidableEq

/-- One record of a deck keyword (`getRecord i` yields one of these). -/
structure DeckRecord where
  items : List DeckItem
deriving Repr, DecidableEq

/-- A deck keyword: a name plus its flat numeric payloads
(`getSIDoubleData`, `getIntData`) and its structured records. -/
structure DeckKeyword where
  name : String
  siDoubleData : List Rat
  intData : List Int
  records : List DeckRecord
deriving Repr, DecidableEq

/-- A deck is queried purely through `hasKeyword`/`getKeyword`; we model it
as the list of its keywords. -/
abbrev Deck := List DeckKeyword

/-- Models `deck->hasKeyword(name)`. -/
def Deck.hasKeyword (deck : Deck) (kwname : String) : Bool :=
  deck.any (fun kw => kw.name == kwname)

/-- Models `deck->getKeyword(name)`; `none` when the keyword is absent (the parser
would throw there — every call in the translated code is guarded by
`hasKeyword`). -/
def Deck.getKeyword? (deck : Deck) (kwname : String) : Option DeckKeyword :=
  deck.find? (fun kw => kw.name == kwname)

/-- Failure of a grid-construction path: either an `OPM_THROW` with its
message, or an out-of-bounds access on deck data. -/
inductive GridError where
  | thrown (msg : String)
  | outOfBounds
deriving Repr, DecidableEq

deriving instance DecidableEq for Except

/-- Calls `getKeyword` behind a `hasKeyword`-style guard, as an `Except`. -/
def expectKeyword (deck : Deck) (kwname : String) : Except GridError DeckKeyword :=
  match deck.getKeyword? kwname with
  | some kw => .ok kw
  | none => .error .outOfBounds

/-- The `struct grdecl` record filled by `GridManager::createGrdecl`:
dims, ZCORN, COORD, optional ACTNUM, optional (freshly copied) MAPAXES. -/
structure Grdecl where
  dims : Int × Int × Int
  zcorn : List Rat
  coord : List Rat
  actnum : Option (List Int)
  mapaxes : Option (List Rat)
deriving Repr, DecidableEq

/-- Reads `kw->getRecord(0)->getItem(i)->getInt(0)` for `i = 0, 1, 2`:
the first record's first three items, as used for DIMENS/SPECGRID. -/
def getDims3 (kw : DeckKeyword) : Except GridError (Int × Int × Int) :=
  match kw.records.get? 0 with
  | none => .error .outOfBounds
  | some r =>
    match r.items.get? 0, r.items.get? 1, r.items.get? 2 with
    | some it0, some it1, some it2 =>
      match it0.ints.get? 0, it1.ints.get? 0, it2.ints.get? 0 with
      | some a, some b, some c => .ok (a, b, c)
      | _, _, _ => .error .outOfBounds
    | _, _, _ => .error .outOfBounds

/-- The logical-dimension resolution duplicated in `createGrdecl`
(GridManager.cpp:186-198) and `initFromDeckTensorgrid`
(GridManager.cpp:242-254): DIMENS if present, else SPECGRID, else throw. -/
def resolveDims (deck : Deck) : Except GridError (Int × Int × Int) :=
  if deck.hasKeyword "DIMENS" then
    match deck.getKeyword? "DIMENS" with
    | some kw => getDims3 kw
    | none => .error .outOfBounds
  else if deck.hasKeyword "SPECGRID" then
    match deck.getKeyword? "SPECGRID" with
    | some kw => getDims3 kw
    | none => .error .outOfBounds
  else
    .error (.thrown "Deck must have either DIMENS or SPECGRID.")

/-- The ACTNUM pointer set up at GridManager.cpp:180-183: the keyword's
int data when ACTNUM is present, else null. -/
def deckActnum (deck : Deck) : Option (List Int) :=
  if deck.hasKeyword "ACTNUM" then
    (deck.getKeyword? "ACTNUM").map DeckKeyword.intData
  else none

/-- The MAPAXES copy loop at GridManager.cpp:217-219: element `i` of the
fresh buffer is `mapaxesRecord->getItem(i)->getSIDouble(0)`, and the buffer
length is the record's item count. -/
def getMapaxes (kw : DeckKeyword) : Except GridError (List Rat) :=
  match kw.records.get? 0 with
  | none => .error .outOfBounds
  | some r =>
    match r.items.mapM (fun it => it.sidoubles.get? 0) with
    | some vs => .ok vs
    | none => .error .outOfBounds

/-- The MAPAXES branch of `createGrdecl` (GridManager.cpp:209-222):
a freshly allocated copy when the keyword is present, null otherwise. -/
def deckMapaxes (deck : Deck) : Except GridError (Option (List Rat)) :=
  if deck.hasKeyword "MAPAXES" then
    match deck.getKeyword? "MAPAXES" with
    | none => .error .outOfBounds
    | some mkw =>
      match getMapaxes mkw with
      | .error e => .error e
      | .ok vs => .ok (some vs)
  else .ok none

/-- Models `GridManager::createGrdecl` (GridManager.cpp:175-224): extract ZCORN,
COORD, optional ACTNUM, dims (DIMENS else SPECGRID else throw) and optional
MAPAXES into a `grdecl` record of non-owning views (MAPAXES excepted). -/
def createGrdecl (deck : Deck) : Except GridError Grdecl :=
  match deck.getKeyword? "ZCORN" with
  | none => .error .outOfBounds
  | some zkw =>
  match deck.getKeyword? "COORD" with
  | none => .error .outOfBounds
  | some ckw =>
  match resolveDims deck with
  | .error e => .error e
  | .ok dims =>
  match deckMapaxes deck with
  | .error e => .error e
  | .ok mapaxes =>
    .ok { dims := dims, zcorn := zkw.siDoubleData, coord := ckw.siDoubleData,
          actnum := deckActnum deck, mapaxes := mapaxes }

/-- Runs `std::partial_sum` into a vector with `coords[0] = 0`
(`coordsFromDeltas`, GridManager.cpp:228-234). -/
def coordsFromDeltas (deltas : List Rat) : List Rat :=
  List.scanl (· + ·) 0 deltas

/-- The exact call made to an external mesh builder. -/
inductive BuilderCall where
  | cornerpoint (g : Grdecl) (z_tolerance : Rat)
  | tensor3d (nx ny nz : Nat) (x y z : List Rat) (top_depths : Option (List Rat))
deriving Repr, DecidableEq

/-- Models `GridManager::initFromDeckCornerpoint` up to the call of the external
preprocessor `create_grid_cornerpoint(&grdecl, 0.0)` (GridManager.cpp:161-169). -/
def initFromDeckCornerpoint (deck : Deck) : Except GridError BuilderCall :=
  match createGrdecl deck with
  | .error e => .error e
  | .ok g => .ok (.cornerpoint g 0)

/-- The top-depth extraction of `initFromDeckTensorgrid`
(GridManager.cpp:276-294): DEPTHZ (size-checked against `x.size()*y.size()`)
takes precedence; else a uniform TOPS is broadcast (reading `tops[0]`
unconditionally — an out-of-bounds read when the data is empty); else null. -/
def topDepths (deck : Deck) (x y : List Rat) : Except GridError (Option (List Rat)) :=
  if deck.hasKeyword "DEPTHZ" then
    match deck.getKeyword? "DEPTHZ" with
    | none => .error .outOfBounds
    | some kw =>
      if kw.siDoubleData.length ≠ x.length * y.length then
        .error (.thrown ("Incorrect size of DEPTHZ: " ++ toString kw.siDoubleData.length))
      else .ok (some kw.siDoubleData)
  else if deck.hasKeyword "TOPS" then
    match deck.getKeyword? "TOPS" with
    | none => .error .outOfBounds
    | some kw =>
      match kw.siDoubleData with
      | [] => .error .outOfBounds
      | t0 :: rest =>
        if (t0 :: rest).count t0 ≠ (t0 :: rest).length then
          .error (.thrown "We do not support nonuniform TOPS, please use ZCORN/COORDS instead.")
        else .ok (some (List.replicate (x.length * y.length) t0))
  else .ok none

/-- Models `GridManager::initFromDeckTensorgrid` up to the call of the external
builder `create_grid_tensor3d` (GridManager.cpp:238-298). -/
def initFromDeckTensorgrid (deck : Deck) : Except GridError BuilderCall :=
  match resolveDims deck with
  | .error e => .error e
  | .ok (nx, ny, nz) =>
  match deck.getKeyword? "DXV", deck.getKeyword? "DYV", deck.getKeyword? "DZV" with
  | some kx, some ky, some kz =>
    let dxv := kx.siDoubleData
    let dyv := ky.siDoubleData
    let dzv := kz.siDoubleData
    let x := coordsFromDeltas dxv
    let y := coordsFromDeltas dyv
    let z := coordsFromDeltas dzv
    if nx ≠ (dxv.length : Int) then
      .error (.thrown "Number of DXV data points do not match DIMENS or SPECGRID.")
    else if ny ≠ (dyv.length : Int) then
      .error (.thrown "Number of DYV data points do not match DIMENS or SPECGRID.")
    else if nz ≠ (dzv.length : Int) then
      .error (.thrown "Number of DZV data points do not match DIMENS or SPECGRID.")
    else
      match topDepths deck x y with
      | .error e => .error e
      | .ok top => .ok (.tensor3d dxv.length dyv.length dzv.length x y z top)
  | _, _, _ => .error .outOfBounds

/-- The deck dispatch of `GridManager::GridManager(Opm::DeckConstPtr)`
(GridManager.cpp:77-86): ZCORN+COORD first, then DXV+DYV+DZV, else throw. -/
def gridManagerDeckCall (deck : Deck) : Except GridError BuilderCall :=
  if deck.hasKeyword "ZCORN" && deck.hasKeyword "COORD" then
    initFromDeckCornerpoint deck
  else if deck.hasKeyword "DXV" && deck.hasKeyword "DYV" && deck.hasKeyword "DZV" then
    initFromDeckTensorgrid deck
  else
    .error (.thrown "Could not initialize grid from deck. Need either ZCORN + COORD or DXV + DYV + DZV keywords.")

/-- The null-pointer check performed after every external builder call
(`if (!ug_) OPM_THROW(..., "Failed to construct grid.")`). -/
def runBuilder {M : Type} (builder : BuilderCall → Option M) (call : BuilderCall) :
    Except GridError M :=
  match builder call with
  | some m => .ok m
  | none => .error (.thrown "Failed to construct grid.")

/-- The deck constructor of `GridManager`, parameterised by the external
mesh builder: it either holds the mesh the builder produced or fails. -/
def gridManagerFromDeck {M : Type} (builder : BuilderCall → Option M) (deck : Deck) :
    Except GridError M :=
  match gridManagerDeckCall deck with
  | .error e => .error e
  | .ok call => runBuilder builder call

/-- Models `GridManager::GridManager(const std::string&)` (GridManager.cpp:135-141),
parameterised by the external `read_grid`. -/
def gridManagerFromFile {M : Type} (readGridFn : String → Option M) (path : String) :
    Except GridError M :=
  match readGridFn path with
  | some m => .ok m
  | none => .error (.thrown ("Failed to read grid from file " ++ path))

/-! ## mxgrdecl.c: MATLAB-side corner-point input validation -/

/-- The `mxGetClassID` results relevant to `mx_init_grdecl`. -/
inductive MxClassID where
  | mxDOUBLE_CLASS
  | mxINT32_CLASS
  | otherClass
deriving Repr, DecidableEq

/-- The MATLAB struct read by `mx_init_grdecl`: per field its class id and
its element data (`mxGetNumberOfElements` is the list length). -/
structure MxGridStruct where
  cartDims : List Rat
  actnumClass : MxClassID
  actnumData : List Int
  coordClass : MxClassID
  coordData : List Rat
  zcornClass : MxClassID
  zcornData : List Rat
deriving Repr, DecidableEq

/-- The fields of `struct grdecl` that `mx_init_grdecl` fills (it never
touches `mapaxes`). -/
structure MxGrdecl where
  dims : Int × Int × Int
  actnum : List Int
  coord : List Rat
  zcorn : List Rat
deriving Repr, DecidableEq

/-- C conversion of a `double` to `int`: truncation toward zero. -/
def cDoubleToInt (q : Rat) : Int :=
  Int.tdiv q.num (q.den : Int)

/-- Models `mx_init_grdecl` (mxgrdecl.c:48-94): checks `cartDims` has 3 entries,
ACTNUM is int32 of size nx*ny*nz, COORD is double of size 6*(nx+1)*(ny+1),
ZCORN is double of size 8*nx*ny*nz; `mexErrMsgTxt` aborts with a message. -/
def mx_init_grdecl (s : MxGridStruct) : Except String MxGrdecl :=
  if s.cartDims.length ≠ 3 then
    .error "cartDims field must be 3 numbers"
  else
    let d0 := cDoubleToInt (s.cartDims.getD 0 0)
    let d1 := cDoubleToInt (s.cartDims.getD 1 0)
    let d2 := cDoubleToInt (s.cartDims.getD 2 0)
    if s.actnumClass ≠ MxClassID.mxINT32_CLASS ∨
        (s.actnumData.length : Int) ≠ d0 * d1 * d2 then
      .error "ACTNUM field must be nx*ny*nz numbers int32"
    else if s.coordClass ≠ MxClassID.mxDOUBLE_CLASS ∨
        (s.coordData.length : Int) ≠ 6 * (d0 + 1) * (d1 + 1) then
      .error "COORD field must have 6*(nx+1)*(ny+1) doubles."
    else if s.zcornClass ≠ MxClassID.mxDOUBLE_CLASS ∨
        (s.zcornData.length : Int) ≠ 8 * d0 * d1 * d2 then
      .error "ZCORN field must have 8*nx*ny*nz doubles."
    else
      .ok { dims := (d0, d1, d2), actnum := s.actnumData,
            coord := s.coordData, zcorn := s.zcornData }

/-! ## Helper lemmas about the deck accessors -/

theorem hasKeyword_eq_isSome (deck : Deck) (kwname : String) :
    deck.hasKeyword kwname = (deck.getKeyword? kwname).isSome := by
  induction deck with
  | nil => rfl
  | cons kw rest ih =>
    simp only [Deck.hasKeyword, Deck.getKeyword?, List.any_cons, List.find?] at *
    cases h : kw.name == kwname with
    | true => simp
    | false => simpa [h] using ih

theorem hasKeyword_of_getKeyword?_eq_some {deck : Deck} {kwname : String}
    {kw : DeckKeyword} (h : deck.getKeyword? kwname = some kw) :
    deck.hasKeyword kwname = true := by
  rw [hasKeyword_eq_isSome, h]; rfl

theorem getKeyword?_eq_none_of_hasKeyword {deck : Deck} {kwname : String}
    (h : deck.hasKeyword kwname = false) :
    deck.getKeyword? kwname = none := by
  rw [hasKeyword_eq_isSome] at h
  exact Option.not_isSome_iff_eq_none.mp (by simp [h])

theorem getKeyword?_isSome_of_hasKeyword {deck : Deck} {kwname : String}
    (h : deck.hasKeyword kwname = true) :
    ∃ kw, deck.getKeyword? kwname = some kw := by
  rw [hasKeyword_eq_isSome] at h
  exact Option.isSome_iff_exists.mp h

/-! ## Concrete decks used to instantiate the theorems -/

/-- A keyword carrying only flat SI-double data. -/
def kwData (n : String) (ds : List Rat) : DeckKeyword :=
  ⟨n, ds, [], []⟩

/-- A keyword whose first record carries three one-int items
(the DIMENS/SPECGRID shape). -/
def kwInts3 (n : String) (a b c : Int) : DeckKeyword :=
  ⟨n, [], [], [⟨[⟨[a], []⟩, ⟨[b], []⟩, ⟨[c], []⟩]⟩]⟩

/-- A 1x1x1 deck holding both the corner-point keywords (ZCORN+COORD) and
the tensor-grid keywords (DXV+DYV+DZV). -/
def deckAll5 : Deck :=
  [kwInts3 "DIMENS" 1 1 1,
   kwData "ZCORN" (List.replicate 8 0),
   kwData "COORD" (List.replicate 24 0),
   kwData "DXV" [1], kwData "DYV" [1], kwData "DZV" [1]]

/-- The builder call `deckAll5` produces (corner-point, tolerance 0). -/
def callAll5 : BuilderCall :=
  .cornerpoint ⟨(1, 1, 1), List.replicate 8 0, List.replicate 24 0, none, none⟩ 0

/-! ## C1: deck dispatch is first-match-wins -/

/-- C1: When constructing a GridManager from a Deck, dispatch is
first-match-wins in a fixed order: if the deck contains both ZCORN and COORD,
the corner-point path is taken (even when DXV/DYV/DZV are also present);
otherwise, if it contains all of DXV, DYV and DZV, the tensor-grid path is
taken; otherwise construction fails with the error "Could not initialize
grid from deck. Need either ZCORN + COORD or DXV + DYV + DZV keywords." -/
theorem deck_dispatch_first_match (deck : Deck) :
    ((deck.hasKeyword "ZCORN" && deck.hasKeyword "COORD") = true →
      gridManagerDeckCall deck = initFromDeckCornerpoint deck)
    ∧ ((deck.hasKeyword "ZCORN" && deck.hasKeyword "COORD") = false →
      (deck.hasKeyword "DXV" && deck.hasKeyword "DYV" && deck.hasKeyword "DZV") = true →
      gridManagerDeckCall deck = initFromDeckTensorgrid deck)
    ∧ ((deck.hasKeyword "ZCORN" && deck.hasKeyword "COORD") = false →
      (deck.hasKeyword "DXV" && deck.hasKeyword "DYV" && deck.hasKeyword "DZV") = false →
      gridManagerDeckCall deck =
        .error (.thrown "Could not initialize grid from deck. Need either ZCORN + COORD or DXV + DYV + DZV keywords.")) := by
  refine ⟨fun h => ?_, fun h1 h2 => ?_, fun h1 h2 => ?_⟩ <;>
    simp [gridManagerDeckCall, *]

/-- Witness for C1: a deck with all five of ZCORN, COORD, DXV, DYV, DZV
takes the corner-point path, not the tensor path. -/
theorem deck_dispatch_first_match_witness :
    (deckAll5.hasKeyword "ZCORN" && deckAll5.hasKeyword "COORD") = true
    ∧ (deckAll5.hasKeyword "DXV" && deckAll5.hasKeyword "DYV" && deckAll5.hasKeyword "DZV") = true
    ∧ gridManagerDeckCall deckAll5 = initFromDeckCornerpoint deckAll5 :=
  ⟨by decide, by decide, (deck_dispatch_first_match deckAll5).1 (by decide)⟩

/-! ## C2: construct-or-fail with descriptive errors -/

/-- C2: Every GridManager constructor either completes holding exactly the
mesh the builder produced or fails with a grid-construction error carrying a
human-readable cause ("Failed to construct grid." when a builder returns a
null mesh, "Failed to read grid from file <path>" on the serialized-file
path); on failure no partially-constructed mesh is observable (the result
is an error value, never a mesh). -/
theorem grid_manager_construct_or_fail {M : Type} (builder : BuilderCall → Option M)
    (deck : Deck) (readGridFn : String → Option M) (path : String) :
    (∀ m, gridManagerFromDeck builder deck = .ok m →
      ∃ call, gridManagerDeckCall deck = .ok call ∧ builder call = some m)
    ∧ (∀ call, gridManagerDeckCall deck = .ok call → builder call = none →
      gridManagerFromDeck builder deck = .error (.thrown "Failed to construct grid."))
    ∧ (readGridFn path = none →
      gridManagerFromFile readGridFn path =
        .error (.thrown ("Failed to read grid from file " ++ path)))
    ∧ (∀ m, gridManagerFromFile readGridFn path = .ok m → readGridFn path = some m) := by
  refine ⟨fun m h => ?_, fun call hc hb => ?_, fun h => ?_, fun m h => ?_⟩
  · cases hc : gridManagerDeckCall deck with
    | error e => rw [gridManagerFromDeck, hc] at h; exact absurd h (by simp)
    | ok call =>
      refine ⟨call, rfl, ?_⟩
      rw [gridManagerFromDeck, hc] at h
      cases hb : builder call with
      | none => simp [runBuilder, hb] at h
      | some m' => simp [runBuilder, hb] at h; rw [h]
  · rw [gridManagerFromDeck, hc]; simp [runBuilder, hb]
  · rw [gridManagerFromFile, h]
  · rw [gridManagerFromFile] at h
    cases hr : readGridFn path with
    | none => rw [hr] at h; exact absurd h (by simp)
    | some m' => rw [hr] at h; cases h; rfl

/-- Witness for C2: with a builder that returns null, the deck constructor
fails with "Failed to construct grid."; with a reader that returns null,
the file constructor fails naming the path; with successful collaborators,
the held mesh is exactly the one produced. -/
theorem grid_manager_construct_or_fail_witness :
    gridManagerFromDeck (fun _ => (none : Option Unit)) deckAll5 =
      .error (.thrown "Failed to construct grid.")
    ∧ gridManagerFromFile (fun _ => (none : Option Unit)) "mesh.bin" =
      .error (.thrown ("Failed to read grid from file " ++ "mesh.bin"))
    ∧ (∃ call, gridManagerDeckCall deckAll5 = .ok call ∧
        (fun _ : BuilderCall => some ()) call = some ())
    ∧ (fun _ : String => some ()) "mesh.bin" = some () :=
  ⟨(grid_manager_construct_or_fail (fun _ => (none : Option Unit)) deckAll5
      (fun _ => none) "mesh.bin").2.1 callAll5 (by decide) rfl,
   (grid_manager_construct_or_fail (fun _ => (none : Option Unit)) deckAll5
      (fun _ => none) "mesh.bin").2.2.1 rfl,
   (grid_manager_construct_or_fail (fun _ => (some () : Option Unit)) deckAll5
      (fun _ => some ()) "mesh.bin").1 () (by decide),
   (grid_manager_construct_or_fail (fun _ => (some () : Option Unit)) deckAll5
      (fun _ => some ()) "mesh.bin").2.2.2 () rfl⟩

/-! ## C3: logical-dimension resolution (DIMENS, else SPECGRID, else error) -/

/-- A deck with corner-point data but neither DIMENS nor SPECGRID. -/
def deckNoDims : Deck :=
  [kwData "ZCORN" [0], kwData "COORD" [0]]

/-- A deck declaring dimensions through DIMENS. -/
def deckDimens : Deck :=
  [kwInts3 "DIMENS" 2 3 4]

/-- A deck declaring dimensions through SPECGRID only. -/
def deckSpecgrid : Deck :=
  [kwInts3 "SPECGRID" 5 6 7]

/-- C3: For both deck-driven paths the logical dimensions are taken from
the first record's first three items of DIMENS when present, else from
SPECGRID when present; with neither keyword, construction fails with
"Deck must have either DIMENS or SPECGRID." -/
theorem dims_resolution_spec :
    (∀ deck : Deck, deck.hasKeyword "DIMENS" = false → deck.hasKeyword "SPECGRID" = false →
      resolveDims deck = .error (.thrown "Deck must have either DIMENS or SPECGRID.")
      ∧ initFromDeckTensorgrid deck = .error (.thrown "Deck must have either DIMENS or SPECGRID.")
      ∧ (deck.hasKeyword "ZCORN" = true → deck.hasKeyword "COORD" = true →
        initFromDeckCornerpoint deck = .error (.thrown "Deck must have either DIMENS or SPECGRID.")))
    ∧ (∀ (deck : Deck) (kw : DeckKeyword), deck.getKeyword? "DIMENS" = some kw →
      resolveDims deck = getDims3 kw)
    ∧ (∀ (deck : Deck) (kw : DeckKeyword), deck.hasKeyword "DIMENS" = false →
      deck.getKeyword? "SPECGRID" = some kw → resolveDims deck = getDims3 kw)
    ∧ (∀ (kw : DeckKeyword) (r : DeckRecord) (it0 it1 it2 : DeckItem) (a b c : Int),
      kw.records.get? 0 = some r →
      r.items.get? 0 = some it0 → r.items.get? 1 = some it1 → r.items.get? 2 = some it2 →
      it0.ints.get? 0 = some a → it1.ints.get? 0 = some b → it2.ints.get? 0 = some c →
      getDims3 kw = .ok (a, b, c)) := by
  refine ⟨fun deck h1 h2 => ?_, fun deck kw h => ?_, fun deck kw h1 h2 => ?_,
    fun kw r it0 it1 it2 a b c hr h0 h1 h2 ha hb hc => ?_⟩
  · have hres : resolveDims deck = .error (.thrown "Deck must have either DIMENS or SPECGRID.") := by
      simp [resolveDims, h1, h2]
    refine ⟨hres, ?_, fun hz hcoord => ?_⟩
    · simp only [initFromDeckTensorgrid, hres]
    · obtain ⟨zkw, hzk⟩ := getKeyword?_isSome_of_hasKeyword hz
      obtain ⟨ckw, hck⟩ := getKeyword?_isSome_of_hasKeyword hcoord
      simp only [initFromDeckCornerpoint, createGrdecl, hzk, hck, hres]
  · simp [resolveDims, hasKeyword_of_getKeyword?_eq_some h, h]
  · simp [resolveDims, h1, hasKeyword_of_getKeyword?_eq_some h2, h2]
  · simp only [List.get?_eq_getElem?] at hr h0 h1 h2 ha hb hc
    simp [getDims3, hr, h0, h1, h2, ha, hb, hc]

/-- Witness for C3: concrete decks exercising the DIMENS branch, the
SPECGRID branch, and the neither-keyword failure of both deck paths. -/
theorem dims_resolution_spec_witness :
    resolveDims deckNoDims = .error (.thrown "Deck must have either DIMENS or SPECGRID.")
    ∧ initFromDeckTensorgrid deckNoDims = .error (.thrown "Deck must have either DIMENS or SPECGRID.")
    ∧ initFromDeckCornerpoint deckNoDims = .error (.thrown "Deck must have either DIMENS or SPECGRID.")
    ∧ resolveDims deckDimens = getDims3 (kwInts3 "DIMENS" 2 3 4)
    ∧ resolveDims deckSpecgrid = getDims3 (kwInts3 "SPECGRID" 5 6 7)
    ∧ getDims3 (kwInts3 "DIMENS" 2 3 4) = .ok (2, 3, 4) :=
  ⟨(dims_resolution_spec.1 deckNoDims (by decide) (by decide)).1,
   (dims_resolution_spec.1 deckNoDims (by decide) (by decide)).2.1,
   (dims_resolution_spec.1 deckNoDims (by decide) (by decide)).2.2 (by decide) (by decide),
   dims_resolution_spec.2.1 deckDimens (kwInts3 "DIMENS" 2 3 4) (by decide),
   dims_resolution_spec.2.2.1 deckSpecgrid (kwInts3 "SPECGRID" 5 6 7) (by decide) (by decide),
   dims_resolution_spec.2.2.2 (kwInts3 "DIMENS" 2 3 4) ⟨[⟨[2], []⟩, ⟨[3], []⟩, ⟨[4], []⟩]⟩
     ⟨[2], []⟩ ⟨[3], []⟩ ⟨[4], []⟩ 2 3 4 rfl rfl rfl rfl rfl rfl rfl⟩

/-! ## C4: corner-point inputs with mismatched ZCORN/COORD sizes fail -/

/-- A corner-point input whose COORD array is too short for its dims. -/
def mxBadCoord : MxGridStruct :=
  ⟨[1, 1, 1], .mxINT32_CLASS, [1], .mxDOUBLE_CLASS, [], .mxDOUBLE_CLASS,
    List.replicate 8 0⟩

/-- C4: whenever the ZCORN size differs from 8*nx*ny*nz or the COORD size
differs from 6*(nx+1)*(ny+1), `mx_init_grdecl` fails with a descriptive
error and returns no grdecl. -/
theorem cornerpoint_size_mismatch_fails (s : MxGridStruct)
    (h3 : s.cartDims.length = 3)
    (hmis : (s.zcornData.length : Int) ≠
        8 * cDoubleToInt (s.cartDims.getD 0 0) * cDoubleToInt (s.cartDims.getD 1 0) *
          cDoubleToInt (s.cartDims.getD 2 0)
      ∨ (s.coordData.length : Int) ≠
        6 * (cDoubleToInt (s.cartDims.getD 0 0) + 1) * (cDoubleToInt (s.cartDims.getD 1 0) + 1)) :
    ∃ msg, mx_init_grdecl s = .error msg := by
  simp only [mx_init_grdecl, h3]
  rw [if_neg (by omega)]
  split
  · exact ⟨_, rfl⟩
  · split
    · exact ⟨_, rfl⟩
    · split
      · exact ⟨_, rfl⟩
      · rename_i hb hc
        exfalso
        push_neg at hb hc
        rcases hmis with hm | hm
        · exact hm hc.2
        · exact hm hb.2

/-- Witness for C4: a 1x1x1 input with an empty COORD array is rejected. -/
theorem cornerpoint_size_mismatch_fails_witness :
    (∃ msg, mx_init_grdecl mxBadCoord = .error msg)
    ∧ mx_init_grdecl mxBadCoord = .error "COORD field must have 6*(nx+1)*(ny+1) doubles." :=
  ⟨cornerpoint_size_mismatch_fails mxBadCoord (by decide) (by decide), by decide⟩

/-! ## C5: coordinates are the cumulative sum of deltas starting at 0 -/

theorem scanl_add_getD_zero (a : Rat) (l : List Rat) :
    (List.scanl (· + ·) a l).getD 0 0 = a := by
  cases l <;> rfl

theorem scanl_add_getD_succ (l : List Rat) : ∀ (a : Rat) (i : Nat), i < l.length →
    (List.scanl (· + ·) a l).getD (i + 1) 0
      = (List.scanl (· + ·) a l).getD i 0 + l.getD i 0 := by
  induction l with
  | nil => intro a i h; simp at h
  | cons d t ih =>
    intro a i h
    cases i with
    | zero =>
      simp [List.scanl, List.getD_cons_succ, List.getD_cons_zero, scanl_add_getD_zero]
    | succ j =>
      have h' : j < t.length := by simpa using h
      simp only [List.scanl, List.getD_cons_succ]
      exact ih (a + d) j h'

/-- A small tensor-grid deck: DIMENS=(2,1,1), DXV=[1,2], DYV=[3], DZV=[4]. -/
def deckTensorSmall : Deck :=
  [kwInts3 "DIMENS" 2 1 1, kwData "DXV" [1, 2], kwData "DYV" [3], kwData "DZV" [4]]

/-- C5: `coordsFromDeltas` maps a length-n delta vector to a length-(n+1)
coordinate vector with coords[0] = 0 and coords[i] = coords[i-1] + delta[i-1]
for 1 ≤ i ≤ n; and the tensor path applies it independently to the DXV, DYV
and DZV data. -/
theorem coords_from_deltas_spec :
    (∀ deltas : List Rat,
      (coordsFromDeltas deltas).length = deltas.length + 1
      ∧ (coordsFromDeltas deltas).getD 0 0 = 0
      ∧ ∀ i, i < deltas.length →
        (coordsFromDeltas deltas).getD (i + 1) 0
          = (coordsFromDeltas deltas).getD i 0 + deltas.getD i 0)
    ∧ (∀ (deck : Deck) (nx ny nz : Nat) (x y z : List Rat) (top : Option (List Rat))
        (kx ky kz : DeckKeyword),
      deck.getKeyword? "DXV" = some kx → deck.getKeyword? "DYV" = some ky →
      deck.getKeyword? "DZV" = some kz →
      initFromDeckTensorgrid deck = .ok (.tensor3d nx ny nz x y z top) →
      x = coordsFromDeltas kx.siDoubleData ∧ y = coordsFromDeltas ky.siDoubleData
        ∧ z = coordsFromDeltas kz.siDoubleData) := by
  constructor
  · intro deltas
    exact ⟨List.length_scanl 0 deltas, scanl_add_getD_zero 0 deltas,
      fun i h => scanl_add_getD_succ deltas 0 i h⟩
  · intro deck nx ny nz x y z top kx ky kz hkx hky hkz hres
    cases hd : resolveDims deck with
    | error e => rw [initFromDeckTensorgrid, hd] at hres; exact absurd hres (by simp)
    | ok dims =>
      obtain ⟨na, nb, nc⟩ := dims
      rw [initFromDeckTensorgrid, hd, hkx, hky, hkz] at hres
      simp only [] at hres
      split at hres
      · exact absurd hres (by simp)
      · split at hres
        · exact absurd hres (by simp)
        · split at hres
          · exact absurd hres (by simp)
          · cases ht : topDepths deck (coordsFromDeltas kx.siDoubleData)
                (coordsFromDeltas ky.siDoubleData) with
            | error e => rw [ht] at hres; exact absurd hres (by simp)
            | ok top' =>
              rw [ht] at hres
              cases hres
              exact ⟨rfl, rfl, rfl⟩

/-- Witness for C5: deltas [1,2] give coords [0,1,3], and the small tensor
deck's builder call carries exactly the cumulative coordinates of its
DXV/DYV/DZV data. -/
theorem coords_from_deltas_spec_witness :
    ((coordsFromDeltas [1, 2]).length = 3
     ∧ (coordsFromDeltas [1, 2]).getD 0 0 = 0
     ∧ (coordsFromDeltas [1, 2]).getD 2 0
         = (coordsFromDeltas [1, 2]).getD 1 0 + ([1, 2] : List Rat).getD 1 0)
    ∧ (([0, 1, 3] : List Rat) = coordsFromDeltas (kwData "DXV" [1, 2]).siDoubleData
       ∧ ([0, 3] : List Rat) = coordsFromDeltas (kwData "DYV" [3]).siDoubleData
       ∧ ([0, 4] : List Rat) = coordsFromDeltas (kwData "DZV" [4]).siDoubleData) :=
  ⟨⟨(coords_from_deltas_spec.1 [1, 2]).1, (coords_from_deltas_spec.1 [1, 2]).2.1,
    (coords_from_deltas_spec.1 [1, 2]).2.2 1 (by decide)⟩,
   coords_from_deltas_spec.2 deckTensorSmall 2 1 1 [0, 1, 3] [0, 3] [0, 4] none
     (kwData "DXV" [1, 2]) (kwData "DYV" [3]) (kwData "DZV" [4])
     (by decide) (by decide) (by decide)
     (by simp [initFromDeckTensorgrid, resolveDims, getDims3, topDepths, coordsFromDeltas,
           Deck.hasKeyword, Deck.getKeyword?, deckTensorSmall, kwData, kwInts3,
           List.scanl, List.find?]; norm_num)⟩

/-! ## C6: declared dims must agree with the delta-vector lengths -/

theorem string_head_ne {a b : String} (h : a.data.head? ≠ b.data.head?) : a ≠ b :=
  fun e => h (congrArg (fun t => t.data.head?) e)

theorem depthz_msg_head (s : String) :
    ("Incorrect size of DEPTHZ: " ++ s).data.head? = some 'I' := by
  have h1 : ("Incorrect size of DEPTHZ: " ++ s).data
      = "Incorrect size of DEPTHZ: ".data ++ s.data := rfl
  have h2 : "Incorrect size of DEPTHZ: ".data
      = 'I' :: "ncorrect size of DEPTHZ: ".data := by decide
  rw [h1, h2]; rfl

/-- Every failure of the top-depth extraction is an out-of-bounds access, a
DEPTHZ size error, or the nonuniform-TOPS error. -/
theorem topDepths_error_shape (deck : Deck) (x y : List Rat) (e : GridError)
    (h : topDepths deck x y = .error e) :
    e = .outOfBounds
    ∨ (∃ n : Nat, e = .thrown ("Incorrect size of DEPTHZ: " ++ toString n))
    ∨ e = .thrown "We do not support nonuniform TOPS, please use ZCORN/COORDS instead." := by
  unfold topDepths at h
  split at h
  · split at h
    · cases h; exact Or.inl rfl
    · split at h
      · cases h; exact Or.inr (Or.inl ⟨_, rfl⟩)
      · exact absurd h (by simp)
  · split at h
    · split at h
      · cases h; exact Or.inl rfl
      · split at h
        · cases h; exact Or.inl rfl
        · split at h
          · cases h; exact Or.inr (Or.inr rfl)
          · exact absurd h (by simp)
    · exact absurd h (by simp)

/-- A deck whose DIMENS disagrees with the DXV length. -/
def deckTensorMismatch : Deck :=
  [kwInts3 "DIMENS" 3 1 1, kwData "DXV" [1], kwData "DYV" [3], kwData "DZV" [4]]

/-- C6: each of nx != |DXV|, ny != |DYV|, nz != |DZV| causes a fatal error
naming the offending keyword; when all three lengths match, no such
dimension-mismatch error is raised. -/
theorem tensor_dims_mismatch_spec (deck : Deck) (d0 d1 d2 : Int) (kx ky kz : DeckKeyword)
    (hd : resolveDims deck = .ok (d0, d1, d2))
    (hkx : deck.getKeyword? "DXV" = some kx)
    (hky : deck.getKeyword? "DYV" = some ky)
    (hkz : deck.getKeyword? "DZV" = some kz) :
    (d0 ≠ (kx.siDoubleData.length : Int) →
      initFromDeckTensorgrid deck =
        .error (.thrown "Number of DXV data points do not match DIMENS or SPECGRID."))
    ∧ (d0 = (kx.siDoubleData.length : Int) → d1 ≠ (ky.siDoubleData.length : Int) →
      initFromDeckTensorgrid deck =
        .error (.thrown "Number of DYV data points do not match DIMENS or SPECGRID."))
    ∧ (d0 = (kx.siDoubleData.length : Int) → d1 = (ky.siDoubleData.length : Int) →
      d2 ≠ (kz.siDoubleData.length : Int) →
      initFromDeckTensorgrid deck =
        .error (.thrown "Number of DZV data points do not match DIMENS or SPECGRID."))
    ∧ (d0 = (kx.siDoubleData.length : Int) → d1 = (ky.siDoubleData.length : Int) →
      d2 = (kz.siDoubleData.length : Int) →
      initFromDeckTensorgrid deck ≠
        .error (.thrown "Number of DXV data points do not match DIMENS or SPECGRID.")
      ∧ initFromDeckTensorgrid deck ≠
        .error (.thrown "Number of DYV data points do not match DIMENS or SPECGRID.")
      ∧ initFromDeckTensorgrid deck ≠
        .error (.thrown "Number of DZV data points do not match DIMENS or SPECGRID.")) := by
  have hmain : initFromDeckTensorgrid deck =
      (if d0 ≠ (kx.siDoubleData.length : Int) then
        .error (.thrown "Number of DXV data points do not match DIMENS or SPECGRID.")
      else if d1 ≠ (ky.siDoubleData.length : Int) then
        .error (.thrown "Number of DYV data points do not match DIMENS or SPECGRID.")
      else if d2 ≠ (kz.siDoubleData.length : Int) then
        .error (.thrown "Number of DZV data points do not match DIMENS or SPECGRID.")
      else
        match topDepths deck (coordsFromDeltas kx.siDoubleData) (coordsFromDeltas ky.siDoubleData) with
        | .error e => .error e
        | .ok top => .ok (.tensor3d kx.siDoubleData.length ky.siDoubleData.length
            kz.siDoubleData.length (coordsFromDeltas kx.siDoubleData)
            (coordsFromDeltas ky.siDoubleData) (coordsFromDeltas kz.siDoubleData) top)) := by
    rw [initFromDeckTensorgrid, hd, hkx, hky, hkz]
  refine ⟨fun h0 => ?_, fun h0 h1 => ?_, fun h0 h1 h2 => ?_, fun h0 h1 h2 => ?_⟩
  · rw [hmain, if_pos h0]
  · rw [hmain, if_neg (by simp [h0]), if_pos h1]
  · rw [hmain, if_neg (by simp [h0]), if_neg (by simp [h1]), if_pos h2]
  · rw [hmain, if_neg (by simp [h0]), if_neg (by simp [h1]), if_neg (by simp [h2])]
    cases ht : topDepths deck (coordsFromDeltas kx.siDoubleData)
        (coordsFromDeltas ky.siDoubleData) with
    | ok top => exact ⟨by simp, by simp, by simp⟩
    | error e =>
      have hshape := topDepths_error_shape _ _ _ _ ht
      refine ⟨?_, ?_, ?_⟩ <;>
      · intro hcontra
        simp only [Except.error.injEq] at hcontra
        rcases hshape with h | ⟨n, h⟩ | h <;> rw [h] at hcontra
        · exact absurd hcontra (by simp)
        · simp only [GridError.thrown.injEq] at hcontra
          exact absurd hcontra (string_head_ne (by rw [depthz_msg_head]; decide))
        · simp only [GridError.thrown.injEq] at hcontra
          exact absurd hcontra (by decide)

/-- Witness for C6: DIMENS=(3,1,1) with a length-1 DXV fails with the DXV
message; the matching deck raises none of the three mismatch errors. -/
theorem tensor_dims_mismatch_spec_witness :
    initFromDeckTensorgrid deckTensorMismatch =
      .error (.thrown "Number of DXV data points do not match DIMENS or SPECGRID.")
    ∧ (initFromDeckTensorgrid deckTensorSmall ≠
        .error (.thrown "Number of DXV data points do not match DIMENS or SPECGRID.")
      ∧ initFromDeckTensorgrid deckTensorSmall ≠
        .error (.thrown "Number of DYV data points do not match DIMENS or SPECGRID.")
      ∧ initFromDeckTensorgrid deckTensorSmall ≠
        .error (.thrown "Number of DZV data points do not match DIMENS or SPECGRID.")) :=
  ⟨(tensor_dims_mismatch_spec deckTensorMismatch 3 1 1 (kwData "DXV" [1])
      (kwData "DYV" [3]) (kwData "DZV" [4]) (by decide) (by decide) (by decide)
      (by decide)).1 (by decide),
   (tensor_dims_mismatch_spec deckTensorSmall 2 1 1 (kwData "DXV" [1, 2])
      (kwData "DYV" [3]) (kwData "DZV" [4]) (by decide) (by decide) (by decide)
      (by decide)).2.2.2 (by decide) (by decide) (by decide)⟩

/-! ## C7: TOPS branch — uniform values broadcast, nonuniform values fail -/

/-- The spec scenario deck: DIMENS=(2,1,1), deltas, uniform TOPS. -/
def deckTopsUniform : Deck :=
  [kwInts3 "DIMENS" 2 1 1, kwData "DXV" [1, 2], kwData "DYV" [3], kwData "DZV" [4],
   kwData "TOPS" [5, 5]]

/-- The spec scenario deck with a non-uniform TOPS and no DEPTHZ. -/
def deckTopsBad : Deck :=
  [kwInts3 "DIMENS" 2 1 1, kwData "DXV" [1, 2], kwData "DYV" [3], kwData "DZV" [4],
   kwData "TOPS" [5, 5, 6, 5]]

/-- C7: in the tensor path with DEPTHZ absent and TOPS present, if every
TOPS value equals the first one the builder receives that value broadcast to
all (nx+1)*(ny+1) areal nodes; if any value differs, construction fails with
the nonuniform-TOPS error. -/
theorem tops_uniform_spec (deck : Deck) (kx ky kz tk : DeckKeyword) (t0 : Rat)
    (rest : List Rat)
    (hd : resolveDims deck = .ok ((kx.siDoubleData.length : Int),
      (ky.siDoubleData.length : Int), (kz.siDoubleData.length : Int)))
    (hkx : deck.getKeyword? "DXV" = some kx)
    (hky : deck.getKeyword? "DYV" = some ky)
    (hkz : deck.getKeyword? "DZV" = some kz)
    (hnodz : deck.hasKeyword "DEPTHZ" = false)
    (htops : deck.getKeyword? "TOPS" = some tk)
    (hdata : tk.siDoubleData = t0 :: rest) :
    ((∀ v ∈ tk.siDoubleData, v = t0) →
      initFromDeckTensorgrid deck = .ok (.tensor3d kx.siDoubleData.length
        ky.siDoubleData.length kz.siDoubleData.length
        (coordsFromDeltas kx.siDoubleData) (coordsFromDeltas ky.siDoubleData)
        (coordsFromDeltas kz.siDoubleData)
        (some (List.replicate ((kx.siDoubleData.length + 1) * (ky.siDoubleData.length + 1)) t0))))
    ∧ ((∃ v ∈ tk.siDoubleData, v ≠ t0) →
      initFromDeckTensorgrid deck =
        .error (.thrown "We do not support nonuniform TOPS, please use ZCORN/COORDS instead.")) := by
  have htopskw : deck.hasKeyword "TOPS" = true := hasKeyword_of_getKeyword?_eq_some htops
  have hx1 : (coordsFromDeltas kx.siDoubleData).length = kx.siDoubleData.length + 1 :=
    List.length_scanl 0 kx.siDoubleData
  have hy1 : (coordsFromDeltas ky.siDoubleData).length = ky.siDoubleData.length + 1 :=
    List.length_scanl 0 ky.siDoubleData
  have hmain : initFromDeckTensorgrid deck =
      (if (kx.siDoubleData.length : Int) ≠ (kx.siDoubleData.length : Int) then
        .error (.thrown "Number of DXV data points do not match DIMENS or SPECGRID.")
      else if (ky.siDoubleData.length : Int) ≠ (ky.siDoubleData.length : Int) then
        .error (.thrown "Number of DYV data points do not match DIMENS or SPECGRID.")
      else if (kz.siDoubleData.length : Int) ≠ (kz.siDoubleData.length : Int) then
        .error (.thrown "Number of DZV data points do not match DIMENS or SPECGRID.")
      else
        match topDepths deck (coordsFromDeltas kx.siDoubleData)
            (coordsFromDeltas ky.siDoubleData) with
        | .error e => .error e
        | .ok top => .ok (.tensor3d kx.siDoubleData.length ky.siDoubleData.length
            kz.siDoubleData.length (coordsFromDeltas kx.siDoubleData)
            (coordsFromDeltas ky.siDoubleData) (coordsFromDeltas kz.siDoubleData) top)) := by
    rw [initFromDeckTensorgrid, hd, hkx, hky, hkz]
  rw [if_neg (by simp), if_neg (by simp), if_neg (by simp)] at hmain
  have htd : topDepths deck (coordsFromDeltas kx.siDoubleData)
      (coordsFromDeltas ky.siDoubleData) =
      (if (t0 :: rest).count t0 ≠ (t0 :: rest).length then
        .error (.thrown "We do not support nonuniform TOPS, please use ZCORN/COORDS instead.")
      else .ok (some (List.replicate ((coordsFromDeltas kx.siDoubleData).length *
          (coordsFromDeltas ky.siDoubleData).length) t0))) := by
    rw [topDepths, hnodz]
    simp only [Bool.false_eq_true, if_false, htopskw, if_true, htops, hdata]
  constructor
  · intro huni
    have hcount : (t0 :: rest).count t0 = (t0 :: rest).length :=
      List.count_eq_length.mpr (fun b hb => (huni b (by rw [hdata]; exact hb)).symm)
    rw [hmain, htd, if_neg (by simp [hcount]), hx1, hy1]
  · rintro ⟨v, hv, hne⟩
    have hcount : (t0 :: rest).count t0 ≠ (t0 :: rest).length := fun heq =>
      hne ((List.count_eq_length.mp heq v (by rw [hdata] at hv; exact hv)).symm)
    rw [hmain, htd, if_pos hcount]

/-- Witness for C7: TOPS=[5,5] is broadcast to all 6 areal nodes of the
2x1x1 grid; TOPS=[5,5,6,5] with no DEPTHZ fails. -/
theorem tops_uniform_spec_witness :
    initFromDeckTensorgrid deckTopsUniform = .ok (.tensor3d 2 1 1
      (coordsFromDeltas [1, 2]) (coordsFromDeltas [3]) (coordsFromDeltas [4])
      (some (List.replicate 6 5)))
    ∧ initFromDeckTensorgrid deckTopsBad =
      .error (.thrown "We do not support nonuniform TOPS, please use ZCORN/COORDS instead.") :=
  ⟨(tops_uniform_spec deckTopsUniform (kwData "DXV" [1, 2]) (kwData "DYV" [3])
      (kwData "DZV" [4]) (kwData "TOPS" [5, 5]) 5 [5] (by decide) (by decide) (by decide)
      (by decide) (by decide) (by decide) rfl).1 (by decide),
   (tops_uniform_spec deckTopsBad (kwData "DXV" [1, 2]) (kwData "DYV" [3])
      (kwData "DZV" [4]) (kwData "TOPS" [5, 5, 6, 5]) 5 [5, 6, 5] (by decide) (by decide)
      (by decide) (by decide) (by decide) (by decide) rfl).2
      ⟨6, by decide, by decide⟩⟩

/-! ## C8: MAPAXES extraction in createGrdecl -/

theorem mapM'_option_length {α β : Type} (f : α → Option β) :
    ∀ (l : List α) (vs : List β), List.mapM' f l = some vs → vs.length = l.length := by
  intro l
  induction l with
  | nil => intro vs h; cases h; rfl
  | cons a t ih =>
    intro vs h
    simp only [List.mapM'] at h
    cases hfa : f a with
    | none => rw [hfa] at h; simp at h
    | some b =>
      rw [hfa] at h
      cases hmt : List.mapM' f t with
      | none => rw [hmt] at h; simp at h
      | some bs =>
        rw [hmt] at h
        simp at h
        subst h
        simp [ih bs hmt]

theorem mapM_option_length {α β : Type} (f : α → Option β) (l : List α) (vs : List β)
    (h : l.mapM f = some vs) : vs.length = l.length :=
  mapM'_option_length f l vs (by rw [List.mapM'_eq_mapM]; exact h)

/-- A corner-point deck without MAPAXES. -/
def deckNoMapaxes : Deck :=
  [kwInts3 "DIMENS" 1 1 1,
   kwData "ZCORN" (List.replicate 8 0),
   kwData "COORD" (List.replicate 24 0)]

/-- A corner-point deck carrying a MAPAXES keyword with a 6-item record. -/
def deckMapaxesPresent : Deck :=
  [kwInts3 "DIMENS" 1 1 1,
   kwData "ZCORN" (List.replicate 8 0),
   kwData "COORD" (List.replicate 24 0),
   ⟨"MAPAXES", [], [], [⟨[⟨[], [0]⟩, ⟨[], [1]⟩, ⟨[], [0]⟩, ⟨[], [0]⟩, ⟨[], [1]⟩, ⟨[], [0]⟩]⟩]⟩]

/-- C8: in `createGrdecl`, when MAPAXES is present the output record's
mapaxes field is a fresh buffer whose length equals the keyword record's
size and whose elements are the record's SI-converted item values, handed
onward to the builder; when absent, mapaxes is null. -/
theorem mapaxes_extraction_spec (deck : Deck) (zkw ckw : DeckKeyword)
    (dims : Int × Int × Int)
    (hz : deck.getKeyword? "ZCORN" = some zkw)
    (hc : deck.getKeyword? "COORD" = some ckw)
    (hd : resolveDims deck = .ok dims) :
    (deck.hasKeyword "MAPAXES" = false →
      createGrdecl deck =
        .ok ⟨dims, zkw.siDoubleData, ckw.siDoubleData, deckActnum deck, none⟩)
    ∧ (∀ (mkw : DeckKeyword) (vs : List Rat),
      deck.getKeyword? "MAPAXES" = some mkw → getMapaxes mkw = .ok vs →
      createGrdecl deck =
        .ok ⟨dims, zkw.siDoubleData, ckw.siDoubleData, deckActnum deck, some vs⟩
      ∧ ∀ r, mkw.records.get? 0 = some r → vs.length = r.items.length) := by
  constructor
  · intro hno
    have hm : deckMapaxes deck = .ok none := by
      rw [deckMapaxes, hno]; rfl
    rw [createGrdecl, hz, hc, hd, hm]
  · intro mkw vs hmk hvs
    constructor
    · have hm : deckMapaxes deck = .ok (some vs) := by
        rw [deckMapaxes, if_pos (hasKeyword_of_getKeyword?_eq_some hmk), hmk]
        show (match getMapaxes mkw with
          | .error e => .error e
          | .ok ws => .ok (some ws)) = Except.ok (some vs)
        rw [hvs]
      rw [createGrdecl, hz, hc, hd, hm]
    · intro r hr
      rw [getMapaxes, hr] at hvs
      have hvs' : (match r.items.mapM (fun it => it.sidoubles.get? 0) with
          | some ws => (Except.ok ws : Except GridError (List Rat))
          | none => Except.error GridError.outOfBounds) = Except.ok vs := hvs
      cases hmm : r.items.mapM (fun it => it.sidoubles.get? 0) with
      | none => rw [hmm] at hvs'; exact absurd hvs' (by simp)
      | some vs' =>
        rw [hmm] at hvs'
        cases hvs'
        exact mapM_option_length _ _ _ hmm

/-- Witness for C8: the MAPAXES-free deck yields a null mapaxes field; the
deck with a 6-item MAPAXES record yields the 6 SI values in order. -/
theorem mapaxes_extraction_spec_witness :
    createGrdecl deckNoMapaxes =
      .ok ⟨(1, 1, 1), List.replicate 8 0, List.replicate 24 0, none, none⟩
    ∧ createGrdecl deckMapaxesPresent =
      .ok ⟨(1, 1, 1), List.replicate 8 0, List.replicate 24 0, none,
        some [0, 1, 0, 0, 1, 0]⟩
    ∧ ([0, 1, 0, 0, 1, 0] : List Rat).length = 6 :=
  ⟨(mapaxes_extraction_spec deckNoMapaxes (kwData "ZCORN" (List.replicate 8 0))
      (kwData "COORD" (List.replicate 24 0)) (1, 1, 1) (by decide) (by decide)
      (by decide)).1 (by decide),
   ((mapaxes_extraction_spec deckMapaxesPresent (kwData "ZCORN" (List.replicate 8 0))
      (kwData "COORD" (List.replicate 24 0)) (1, 1, 1) (by decide) (by decide)
      (by decide)).2 ⟨"MAPAXES", [], [], [⟨[⟨[], [0]⟩, ⟨[], [1]⟩, ⟨[], [0]⟩, ⟨[], [0]⟩,
        ⟨[], [1]⟩, ⟨[], [0]⟩]⟩]⟩ [0, 1, 0, 0, 1, 0] (by decide) (by decide)).1,
   rfl⟩

/-! ## C9: DEPTHZ takes precedence over TOPS -/

/-- The deck with every TOPS keyword removed; used to state that the TOPS
data is never examined when DEPTHZ is present. -/
def eraseTOPS (deck : Deck) : Deck :=
  deck.filter (fun kw => !(kw.name == "TOPS"))

theorem getKeyword?_eraseTOPS (deck : Deck) (n : String) (h : (n == "TOPS") = false) :
    (eraseTOPS deck).getKeyword? n = deck.getKeyword? n := by
  induction deck with
  | nil => rfl
  | cons kw rest ih =>
    simp only [eraseTOPS, List.filter_cons] at *
    cases ht : kw.name == "TOPS" with
    | true =>
      have hn : (kw.name == n) = false := by
        have h1 : kw.name = "TOPS" := by simpa using ht
        have h2 : n ≠ "TOPS" := by simpa using h
        simp [h1]
        exact fun e => h2 e.symm
      have hstep : Deck.getKeyword? (kw :: rest) n = Deck.getKeyword? rest n :=
        List.find?_cons_of_neg _ (by simp [hn])
      simp only [ht, Bool.not_true, Bool.false_eq_true, if_false]
      rw [hstep]
      exact ih
    | false =>
      simp only [ht, Bool.not_false, if_true]
      cases hn : kw.name == n with
      | true =>
        have h1 : Deck.getKeyword?
            (kw :: List.filter (fun k => !(k.name == "TOPS")) rest) n = some kw :=
          List.find?_cons_of_pos _ hn
        have h2 : Deck.getKeyword? (kw :: rest) n = some kw :=
          List.find?_cons_of_pos _ hn
        rw [h1, h2]
      | false =>
        have h1 : Deck.getKeyword?
            (kw :: List.filter (fun k => !(k.name == "TOPS")) rest) n
            = Deck.getKeyword? (List.filter (fun k => !(k.name == "TOPS")) rest) n :=
          List.find?_cons_of_neg _ (by simp [hn])
        have h2 : Deck.getKeyword? (kw :: rest) n = Deck.getKeyword? rest n :=
          List.find?_cons_of_neg _ (by simp [hn])
        rw [h1, h2]
        exact ih

theorem hasKeyword_eraseTOPS (deck : Deck) (n : String) (h : (n == "TOPS") = false) :
    (eraseTOPS deck).hasKeyword n = deck.hasKeyword n := by
  rw [hasKeyword_eq_isSome, hasKeyword_eq_isSome, getKeyword?_eraseTOPS deck n h]

theorem hasKeyword_TOPS_eraseTOPS (deck : Deck) :
    (eraseTOPS deck).hasKeyword "TOPS" = false := by
  induction deck with
  | nil => rfl
  | cons kw rest ih =>
    simp only [eraseTOPS, List.filter_cons] at *
    cases ht : kw.name == "TOPS" with
    | true => simp [ht, ih]
    | false =>
      simp only [ht, Bool.not_false, if_true]
      rw [Deck.hasKeyword, List.any_cons, ht]
      simp [Deck.hasKeyword] at ih
      simp [Deck.hasKeyword, ih]

theorem resolveDims_eraseTOPS (deck : Deck) :
    resolveDims (eraseTOPS deck) = resolveDims deck := by
  rw [resolveDims, resolveDims, hasKeyword_eraseTOPS deck "DIMENS" (by decide),
    getKeyword?_eraseTOPS deck "DIMENS" (by decide),
    hasKeyword_eraseTOPS deck "SPECGRID" (by decide),
    getKeyword?_eraseTOPS deck "SPECGRID" (by decide)]

theorem topDepths_eraseTOPS (deck : Deck) (x y : List Rat)
    (hdz : deck.hasKeyword "DEPTHZ" = true) :
    topDepths (eraseTOPS deck) x y = topDepths deck x y := by
  rw [topDepths, topDepths, hasKeyword_eraseTOPS deck "DEPTHZ" (by decide),
    getKeyword?_eraseTOPS deck "DEPTHZ" (by decide), hdz, if_pos rfl, if_pos rfl]

theorem getDims3_error_shape (kw : DeckKeyword) (e : GridError)
    (h : getDims3 kw = .error e) : e = .outOfBounds := by
  unfold getDims3 at h
  split at h
  · cases h; rfl
  · split at h
    · split at h
      · exact absurd h (by simp)
      · cases h; rfl
    · cases h; rfl

theorem resolveDims_error_shape (deck : Deck) (e : GridError)
    (h : resolveDims deck = .error e) :
    e = .outOfBounds ∨ e = .thrown "Deck must have either DIMENS or SPECGRID." := by
  unfold resolveDims at h
  split at h
  · split at h
    · exact Or.inl (getDims3_error_shape _ _ h)
    · cases h; exact Or.inl rfl
  · split at h
    · split at h
      · exact Or.inl (getDims3_error_shape _ _ h)
      · cases h; exact Or.inl rfl
    · cases h; exact Or.inr rfl

/-- With DEPTHZ present, the top-depth extraction fails only with an
out-of-bounds access or a DEPTHZ size error — never with a TOPS error. -/
theorem topDepths_depthz_error_shape (deck : Deck) (x y : List Rat) (e : GridError)
    (hdz : deck.hasKeyword "DEPTHZ" = true) (h : topDepths deck x y = .error e) :
    e = .outOfBounds
    ∨ ∃ n : Nat, e = .thrown ("Incorrect size of DEPTHZ: " ++ toString n) := by
  rw [topDepths, hdz, if_pos rfl] at h
  split at h
  · cases h; exact Or.inl rfl
  · split at h
    · cases h; exact Or.inr ⟨_, rfl⟩
    · exact absurd h (by simp)

/-- With DEPTHZ present, the tensor path never fails with the
nonuniform-TOPS error. -/
theorem tensor_depthz_no_tops_error (deck : Deck) (e : GridError)
    (hdz : deck.hasKeyword "DEPTHZ" = true)
    (h : initFromDeckTensorgrid deck = .error e) :
    e ≠ .thrown "We do not support nonuniform TOPS, please use ZCORN/COORDS instead." := by
  rw [initFromDeckTensorgrid] at h
  split at h
  · rename_i e' heq
    cases h
    rcases resolveDims_error_shape deck e heq with h1 | h1 <;> rw [h1] <;> simp
  · split at h
    · simp only [] at h
      split at h
      · cases h; simp
      · split at h
        · cases h; simp
        · split at h
          · cases h; simp
          · split at h
            · rename_i e' heq2
              cases h
              rcases topDepths_depthz_error_shape deck _ _ e hdz heq2 with h1 | ⟨n, h1⟩
              · rw [h1]; simp
              · rw [h1]
                intro hcontra
                simp only [GridError.thrown.injEq] at hcontra
                exact absurd hcontra (string_head_ne (by rw [depthz_msg_head]; decide))
            · exact absurd h (by simp)
    · cases h; simp

/-- A tensor deck with both a DEPTHZ field and a non-uniform TOPS. -/
def deckDepthzAndTops : Deck :=
  [kwInts3 "DIMENS" 2 1 1, kwData "DXV" [1, 2], kwData "DYV" [3], kwData "DZV" [4],
   kwData "DEPTHZ" [1, 2, 3, 4, 5, 6], kwData "TOPS" [5, 5, 6, 5]]

/-- C9: when DEPTHZ is present, the tensor path behaves exactly as on the
deck with every TOPS keyword removed (the TOPS data is never examined), and
in particular a non-uniform TOPS never causes the nonuniform-TOPS failure. -/
theorem depthz_precedence_spec (deck : Deck) (hdz : deck.hasKeyword "DEPTHZ" = true) :
    initFromDeckTensorgrid deck = initFromDeckTensorgrid (eraseTOPS deck)
    ∧ (eraseTOPS deck).hasKeyword "TOPS" = false
    ∧ initFromDeckTensorgrid deck ≠
      .error (.thrown "We do not support nonuniform TOPS, please use ZCORN/COORDS instead.") := by
  refine ⟨?_, hasKeyword_TOPS_eraseTOPS deck, fun hcontra => ?_⟩
  · rw [initFromDeckTensorgrid, initFromDeckTensorgrid, resolveDims_eraseTOPS deck,
      getKeyword?_eraseTOPS deck "DXV" (by decide), getKeyword?_eraseTOPS deck "DYV" (by decide),
      getKeyword?_eraseTOPS deck "DZV" (by decide)]
    cases hd : resolveDims deck with
    | error e => rfl
    | ok dims =>
      obtain ⟨a, b, c⟩ := dims
      cases hkx : deck.getKeyword? "DXV" <;> cases hky : deck.getKeyword? "DYV" <;>
        cases hkz : deck.getKeyword? "DZV" <;> simp only []
      rw [topDepths_eraseTOPS deck _ _ hdz]
  · exact tensor_depthz_no_tops_error deck _ hdz hcontra rfl

/-- Witness for C9: a deck with both DEPTHZ and a non-uniform TOPS equals
its TOPS-free counterpart and avoids the nonuniform-TOPS failure. -/
theorem depthz_precedence_spec_witness :
    initFromDeckTensorgrid deckDepthzAndTops =
      initFromDeckTensorgrid (eraseTOPS deckDepthzAndTops)
    ∧ (eraseTOPS deckDepthzAndTops).hasKeyword "TOPS" = false
    ∧ initFromDeckTensorgrid deckDepthzAndTops ≠
      .error (.thrown "We do not support nonuniform TOPS, please use ZCORN/COORDS instead.") :=
  depthz_precedence_spec deckDepthzAndTops (by decide)

/-! ## C10: the unconditional `tops[0]` read in the TOPS branch -/

/-- A tensor deck whose TOPS keyword is present but carries no data. -/
def deckTopsEmpty : Deck :=
  [kwInts3 "DIMENS" 1 1 1, kwData "DXV" [1], kwData "DYV" [1], kwData "DZV" [1],
   kwData "TOPS" []]

/-- C10 counterexample: a deck whose TOPS keyword is present (and DEPTHZ
absent) but whose data sequence is empty reaches the TOPS branch and the
unconditional `tops[0]` read there is out of bounds — presence of the TOPS
keyword does not imply its data is non-empty. -/
theorem tops_empty_read_counterexample :
    deckTopsEmpty.hasKeyword "TOPS" = true
    ∧ deckTopsEmpty.hasKeyword "DEPTHZ" = false
    ∧ (deckTopsEmpty.getKeyword? "TOPS").map DeckKeyword.siDoubleData = some []
    ∧ initFromDeckTensorgrid deckTopsEmpty = .error .outOfBounds :=
  ⟨by decide, by decide, by decide, by decide⟩

/-- C10 amended: in the TOPS branch of the tensor path, element 0 of the
TOPS data is read unconditionally; the read is in bounds exactly when the
TOPS data sequence is non-empty (the code does not guard against an empty
TOPS, so construction hits an out-of-bounds read precisely then). -/
theorem tops_read_in_bounds_amended (deck : Deck) (kx ky kz tk : DeckKeyword)
    (hd : resolveDims deck = .ok ((kx.siDoubleData.length : Int),
      (ky.siDoubleData.length : Int), (kz.siDoubleData.length : Int)))
    (hkx : deck.getKeyword? "DXV" = some kx)
    (hky : deck.getKeyword? "DYV" = some ky)
    (hkz : deck.getKeyword? "DZV" = some kz)
    (hnodz : deck.hasKeyword "DEPTHZ" = false)
    (htops : deck.getKeyword? "TOPS" = some tk) :
    initFromDeckTensorgrid deck = .error .outOfBounds ↔ tk.siDoubleData = [] := by
  have htopskw : deck.hasKeyword "TOPS" = true := hasKeyword_of_getKeyword?_eq_some htops
  have hmain : initFromDeckTensorgrid deck =
      (if (kx.siDoubleData.length : Int) ≠ (kx.siDoubleData.length : Int) then
        .error (.thrown "Number of DXV data points do not match DIMENS or SPECGRID.")
      else if (ky.siDoubleData.length : Int) ≠ (ky.siDoubleData.length : Int) then
        .error (.thrown "Number of DYV data points do not match DIMENS or SPECGRID.")
      else if (kz.siDoubleData.length : Int) ≠ (kz.siDoubleData.length : Int) then
        .error (.thrown "Number of DZV data points do not match DIMENS or SPECGRID.")
      else
        match topDepths deck (coordsFromDeltas kx.siDoubleData)
            (coordsFromDeltas ky.siDoubleData) with
        | .error e => .error e
        | .ok top => .ok (.tensor3d kx.siDoubleData.length ky.siDoubleData.length
            kz.siDoubleData.length (coordsFromDeltas kx.siDoubleData)
            (coordsFromDeltas ky.siDoubleData) (coordsFromDeltas kz.siDoubleData) top)) := by
    rw [initFromDeckTensorgrid, hd, hkx, hky, hkz]
  rw [if_neg (by simp), if_neg (by simp), if_neg (by simp)] at hmain
  have htd : topDepths deck (coordsFromDeltas kx.siDoubleData)
      (coordsFromDeltas ky.siDoubleData) =
      (match tk.siDoubleData with
      | [] => .error .outOfBounds
      | t0 :: rest =>
        if (t0 :: rest).count t0 ≠ (t0 :: rest).length then
          .error (.thrown "We do not support nonuniform TOPS, please use ZCORN/COORDS instead.")
        else .ok (some (List.replicate ((coordsFromDeltas kx.siDoubleData).length *
            (coordsFromDeltas ky.siDoubleData).length) t0))) := by
    rw [topDepths, hnodz]
    simp only [Bool.false_eq_true, if_false, htopskw, if_true, htops]
  constructor
  · intro h
    cases hdata : tk.siDoubleData with
    | nil => rfl
    | cons t0 rest =>
      rw [hmain, htd, hdata] at h
      simp only [] at h
      split at h
      · rename_i e' heq
        cases h
        split at heq
        · exact absurd heq (by simp)
        · exact absurd heq (by simp)
      · exact absurd h (by simp)
  · intro hdata
    rw [hmain, htd, hdata]

/-- Witness for the amended C10: the empty-TOPS deck hits the out-of-bounds
read; the non-empty uniform-TOPS deck does not. -/
theorem tops_read_in_bounds_amended_witness :
    initFromDeckTensorgrid deckTopsEmpty = .error .outOfBounds
    ∧ initFromDeckTensorgrid deckTopsUniform ≠ .error .outOfBounds :=
  ⟨(tops_read_in_bounds_amended deckTopsEmpty (kwData "DXV" [1]) (kwData "DYV" [1])
      (kwData "DZV" [1]) (kwData "TOPS" []) (by decide) (by decide) (by decide)
      (by decide) (by decide) (by decide)).mpr rfl,
   fun h => absurd ((tops_read_in_bounds_amended deckTopsUniform (kwData "DXV" [1, 2])
      (kwData "DYV" [3]) (kwData "DZV" [4]) (kwData "TOPS" [5, 5]) (by decide) (by decide)
      (by decide) (by decide) (by decide) (by decide)).mp h) (by decide)⟩

end Opm
